import Mathlib

/-!
Verification development for the NextDNS-Optimized-Analytics backend.

The definitions below are a shallow embedding of `backend/models.py` and
`backend/scheduler.py`:
  * timestamps are modelled as `Int` (epoch seconds); `datetime.fromisoformat`
    is modelled by an arbitrary total parser `parseTs : String → Int` passed
    as a parameter (the claims under study do not depend on ISO-8601 details,
    only on the parser being a deterministic function);
  * the relational store is a pure state value (`Db`): the `dns_logs` table is
    a list of `Row` values plus an autoincrement counter, the `fetch_status`
    table a list of `FetchStatusRow` values;
  * SQL conditions (`ILIKE`, `NOT IN`, `AND`/`OR`) become boolean predicates;
    Python truthiness on optional strings is modelled explicitly;
  * floats are modelled as rationals, `round(x, 1)` as round-half-to-even on
    tenths (the rounding mode documented for Python round).
-/

/-! ## String primitives

Charwise models of the Python string operations used by the source
(`.lower()`, `.strip()`, `in`, emptiness), written over the character list
so that concrete instances reduce inside the kernel. -/

/-- Python `s.lower()` (ASCII case folding, matching the inputs at hand). -/
def lowerStr (s : String) : String := ⟨s.data.map Char.toLower⟩

/-- Python `s.strip()`. -/
def trimStr (s : String) : String :=
  ⟨((s.data.dropWhile Char.isWhitespace).reverse.dropWhile Char.isWhitespace).reverse⟩

/-- Python truthiness of a string: `""` is falsy. -/
def strIsEmpty (s : String) : Bool := s.data.isEmpty

/-- Python `c in s` for a single character. -/
def strContains (s : String) (c : Char) : Bool := s.data.contains c

/-- Splitting at a separator character, Python `s.split(sep)` semantics
(also the semantics of splitting used by the TLD regex model). -/
def splitDot : List Char → List (List Char)
  | [] => [[]]
  | c :: cs =>
    if c == '.' then [] :: splitDot cs
    else
      match splitDot cs with
      | g :: gs => (c :: g) :: gs
      | [] => [[c]]

/-! ## TLD derivation (`models.py`, `extract_tld`) -/

/-- `\w` character class of the source regex, ASCII approximation
(the input is lowercased before matching). -/
def isWordChar (c : Char) : Bool := c.isAlphanum || c == '_'

/-- The `\w[\w-]*` part of the source regex `^(?:.*\.)?(\w[\w-]*\.[a-zA-Z]{2,})$`:
the second-to-last label. -/
def validSecondLabel (l : String) : Bool :=
  match l.data with
  | [] => false
  | c :: rest => isWordChar c && rest.all (fun d => isWordChar d || d == '-')

/-- The `[a-zA-Z]{2,}` part of the source regex: the final label. -/
def validTldLabel (l : String) : Bool :=
  decide (2 ≤ l.length) && l.data.all Char.isAlpha

/-- `re.match(r"^(?:.*\.)?(\w[\w-]*\.[a-zA-Z]{2,})$", s)` applied to the
already-lowercased string `s`: the group can contain exactly one dot, so a
match exists iff the last two dot-separated labels fit the two label classes,
and the group is then those two labels. -/
def tldOfLower (s : String) : Option String :=
  match ((splitDot s.data).map (fun g => (⟨g⟩ : String))).reverse with
  | t :: l :: _ =>
      if validSecondLabel l && validTldLabel t then some (l ++ "." ++ t) else none
  | _ => none

/-- Body of `extract_tld` for a honest non-empty string: lowercase, match the
regex, return the group on success and the original domain otherwise. -/
def extractTldStr (d : String) : String :=
  match tldOfLower (lowerStr d) with
  | some g => g
  | none => d

/-- Possible Python arguments of `extract_tld`: `None`, a string, or a value
of any other type (the `isinstance(domain, str)` guard). -/
inductive TldInput where
  | pyNone : TldInput
  | pyStr (s : String) : TldInput
  | nonString : TldInput
deriving Repr, DecidableEq

/-- `extract_tld` (`models.py` lines 33-63).  `if not domain or not
isinstance(domain, str): return domain` sends `None`, the empty string and
non-strings back unchanged; otherwise the regex heuristic runs. -/
def extract_tld : TldInput → TldInput
  | .pyNone => .pyNone
  | .nonString => .nonString
  | .pyStr s => if strIsEmpty s then .pyStr s else .pyStr (extractTldStr s)

/-- Modelled from the spec wording of the claim under test: "keeps the last
two dot-separated labels case-folded to lowercase". -/
def specLastTwoLabels (d : String) : String :=
  match ((splitDot (lowerStr d).data).map (fun g => (⟨g⟩ : String))).reverse with
  | t :: l :: _ => l ++ "." ++ t
  | _ => lowerStr d

/-! ## Domain exclusion filter compiler (`models.py`, `build_domain_exclusion_filter`) -/

/-- SQL `LIKE` matching where `%` is the only wildcard.  The source escapes
`_` and `%` occurring in the user pattern and turns each `*` into `%`, so in
terms of the user pattern every character except `*` is literal and `*`
matches any run of characters.  (A backslash in a user pattern would act as
the LIKE escape character; no claim exercises that corner.) -/
def likeMatch : List Char → List Char → Bool
  | [], cs => cs.isEmpty
  | p :: ps, cs =>
    if p == '*' then
      -- `%` stands for any run of characters: the rest of the pattern must
      -- match some suffix of the text.
      cs.tails.any (fun t => likeMatch ps t)
    else
      match cs with
      | [] => false
      | c :: cs' => p == c && likeMatch ps cs'

/-- `domain_column.ilike(sql_pattern)`: case-insensitive full-string glob
match of the user wildcard pattern against a domain. -/
def matchesWildcard (pattern domain : String) : Bool :=
  likeMatch (lowerStr pattern).data (lowerStr domain).data

/-- `build_domain_exclusion_filter` (`models.py` lines 66-154) compiled to a
predicate on the domain column: `none` is the "no filter" value, `some f`
keeps exactly the domains with `f domain = true`.  Entries are trimmed and
blank ones dropped; a pattern containing `*` is a wildcard unless it is one
of the degenerate patterns `*`, `**`, `*.*`, which are dropped; exact
patterns are lowercased into a NOT-IN set; wildcard matches are OR-combined
and negated; both condition kinds are AND-combined.  (Non-string list
entries, skipped by the source, are outside this model, which takes a list
of strings.) -/
def build_domain_exclusion_filter (exclude_domains : List String) : Option (String → Bool) :=
  if exclude_domains.isEmpty then none
  else
    let cleaned := (exclude_domains.map trimStr).filter (fun p => !strIsEmpty p)
    let wildcards := cleaned.filter
      (fun p => strContains p '*' && !(p == "*" || p == "**" || p == "*.*"))
    let exact_matches := cleaned.filter (fun p => !strContains p '*')
    let lowercase_patterns := exact_matches.map lowerStr
    let exactCond : String → Bool := fun d => !(lowercase_patterns.contains (lowerStr d))
    let wildCond : String → Bool := fun d => !(wildcards.any (fun p => matchesWildcard p d))
    -- `conditions` holds the exact condition (when any exact pattern survives)
    -- followed by the wildcard condition (when any wildcard survives);
    -- 0 conditions => None, 1 => it alone, 2 => AND of both.
    if exact_matches.isEmpty then
      if wildcards.isEmpty then none else some wildCond
    else
      if wildcards.isEmpty then some exactCond
      else some (fun d => exactCond d && wildCond d)

/-! ## Data model (`models.py`, `DNSLog` / `FetchStatus`) -/

/-- A raw NextDNS log payload as handled by `add_log`: each field is the
result of `log.get(...)` on the corresponding key (absent key = `none`). -/
structure Payload where
  timestamp : Option String
  domain : Option String
  action : Option String
  status : Option String
  device : Option String
  client_ip : Option String
  clientIp : Option String
  query_type : Option String
  blocked : Option Bool
  profile_id : Option String
deriving Repr, DecidableEq

/-- One `dns_logs` row. `device` holds the serialized device blob, `data`
the original payload (the source keeps `json.dumps(log)`; serialization is
modelled as the identity on the payload value). -/
structure Row where
  id : Nat
  timestamp : Int
  domain : String
  action : String
  device : Option String
  client_ip : Option String
  query_type : String
  blocked : Bool
  profile_id : Option String
  tld : Option String
  data : Payload
deriving Repr, DecidableEq

/-- One `fetch_status` row. -/
structure FetchStatusRow where
  profile_id : String
  last_fetch_timestamp : Int
  last_successful_fetch : Int
  records_fetched : Nat
  created_at : Int
  updated_at : Int
deriving Repr, DecidableEq

/-- The relational store: the `dns_logs` table with its autoincrement
counter, and the `fetch_status` table.  Postgres sequences start at 1. -/
structure Db where
  rows : List Row
  nextId : Nat
  fetch_status : List FetchStatusRow
deriving Repr, DecidableEq

/-- The empty store. -/
def Db.empty : Db := { rows := [], nextId := 1, fetch_status := [] }

/-- Python truthiness on an optional string: `None` and `""` are falsy. -/
def truthyStr : Option String → Option String
  | some s => if strIsEmpty s then none else some s
  | none => none

/-- Python `a or b` on optional strings. -/
def pyOrStr (a b : Option String) : Option String :=
  match truthyStr a with
  | some s => some s
  | none => b

/-- `action = log.get("action") or log.get("status") or "default"`. -/
def actionOf (log : Payload) : String :=
  match truthyStr log.action with
  | some s => s
  | none =>
    match truthyStr log.status with
    | some t => t
    | none => "default"

/-- Timestamp of a payload as computed by `add_log`: parse the `timestamp`
field when it is present and non-empty (Python truthiness), otherwise use
the insertion time `datetime.now(timezone.utc)`. -/
def tsOf (parseTs : String → Int) (now : Int) (log : Payload) : Int :=
  match log.timestamp with
  | some s => if strIsEmpty s then now else parseTs s
  | none => now

/-- The duplicate-prevention identity check of `add_log`:
`filter_by(timestamp=..., domain=..., client_ip=...)` (`filter_by` with a
`None` value is an `IS NULL` comparison, which no stored row of the
non-nullable `domain` column satisfies). -/
def dnsKeyMatches (ts : Int) (dom : Option String) (ip : Option String) (r : Row) : Bool :=
  r.timestamp == ts && some r.domain == dom && r.client_ip == ip

/-- `add_log` (`models.py` lines 357-453).  Returns `((record_id, is_new),
new store)`.  A payload without a `domain` violates the NOT NULL constraint;
the `except SQLAlchemyError` handler turns that into `(None, False)` with the
store rolled back. -/
def add_log (parseTs : String → Int) (now : Int) (db : Db) (log : Payload) :
    (Option Nat × Bool) × Db :=
  let ts := tsOf parseTs now log
  let client_ip := pyOrStr log.client_ip log.clientIp
  match db.rows.find? (dnsKeyMatches ts log.domain client_ip) with
  | some existing => ((some existing.id, false), db)
  | none =>
    match log.domain with
    | none => ((none, false), db)
    | some dom =>
      let action := actionOf log
      let blocked := log.blocked.getD false || action == "blocked"
        || log.status == some "blocked"
      let tld := if strIsEmpty dom then none else some (extractTldStr dom)
      let row : Row :=
        { id := db.nextId, timestamp := ts, domain := dom, action := action,
          device := truthyStr log.device, client_ip := client_ip,
          query_type := log.query_type.getD "A", blocked := blocked,
          profile_id := log.profile_id, tld := tld, data := log }
      ((some db.nextId, true),
        { db with rows := db.rows ++ [row], nextId := db.nextId + 1 })

/-- `get_last_fetch_timestamp` (`models.py` lines 457-483). -/
def get_last_fetch_timestamp (db : Db) (profile_id : String) : Option Int :=
  (db.fetch_status.find? (fun f => f.profile_id == profile_id)).map
    (fun f => f.last_fetch_timestamp)

/-- Mutation of the single ORM object returned by `.first()`: update the
first list element satisfying the predicate. -/
def updateFirst (p : α → Bool) (f : α → α) : List α → List α
  | [] => []
  | x :: xs => if p x then f x :: xs else x :: updateFirst p f xs

/-- The field mutations applied to an existing `fetch_status` row:
`last_fetch_timestamp = last_timestamp`, `last_successful_fetch = now`,
`records_fetched += records_count`, `updated_at = now`. -/
def updCursor (now last_timestamp : Int) (records_count : Nat)
    (f : FetchStatusRow) : FetchStatusRow :=
  { f with last_fetch_timestamp := last_timestamp,
           last_successful_fetch := now,
           records_fetched := f.records_fetched + records_count,
           updated_at := now }

/-- The freshly created `fetch_status` row of a first successful fetch. -/
def freshCursor (now : Int) (profile_id : String) (last_timestamp : Int)
    (records_count : Nat) : FetchStatusRow :=
  { profile_id := profile_id, last_fetch_timestamp := last_timestamp,
    last_successful_fetch := now, records_fetched := records_count,
    created_at := now, updated_at := now }

/-- `update_fetch_status` (`models.py` lines 488-533): update the existing
cursor row of the profile, or create it. -/
def update_fetch_status (now : Int) (db : Db) (profile_id : String)
    (last_timestamp : Int) (records_count : Nat) : Db :=
  match db.fetch_status.find? (fun f => f.profile_id == profile_id) with
  | some _ =>
    { db with
        fetch_status := updateFirst (fun f => f.profile_id == profile_id)
          (updCursor now last_timestamp records_count) db.fetch_status }
  | none =>
    { db with fetch_status :=
        db.fetch_status ++ [freshCursor now profile_id last_timestamp records_count] }

/-! ## Ingestion scheduler (`scheduler.py`, `fetch_logs`) -/

/-- Outcome of the upstream request for one profile: a 200 response with its
decoded `data` list, a non-200 response, or a raised exception (both
`requests.exceptions.RequestException` and the broad `except Exception`). -/
inductive FetchResult where
  | ok (logs : List Payload) : FetchResult
  | httpError (code : Nat) : FetchResult
  | exn : FetchResult
deriving Repr, DecidableEq

/-- `True` for the outcomes counted through `failed_profiles += 1`. -/
def isFailure : FetchResult → Bool
  | .ok _ => false
  | _ => true

/-- The per-cycle counters logged by `fetch_logs`. -/
structure CycleStats where
  total_added : Nat
  total_skipped : Nat
  successful : Nat
  failed : Nat
deriving Repr, DecidableEq

/-- Accumulator of the per-profile ingestion loop. -/
structure IngestAcc where
  added : Nat
  skipped : Nat
  latest : Option Int
  db : Db
deriving Repr, DecidableEq

/-- One iteration of `for log in logs:` in `fetch_logs`: tag the payload with
the profile id, insert it, and track the added/skipped counters and the
maximum timestamp among new records (only payloads whose `timestamp` field is
a non-empty string are tracked).  `if record_id:` is Python truthiness, so a
zero id would count as a failed insert. -/
def ingestStep (parseTs : String → Int) (now : Int) (profile_id : String)
    (acc : IngestAcc) (log : Payload) : IngestAcc :=
  let tagged := { log with profile_id := some profile_id }
  let res := add_log parseTs now acc.db tagged
  let truthyId := match res.1.1 with
    | some n => !(n == 0)
    | none => false
  -- the three source branches (new record / duplicate / failed insert),
  -- factored into one update per accumulator field
  let isNew := truthyId && res.1.2
  let latest' :=
    if isNew then
      match tagged.timestamp with
      | some s =>
        if strIsEmpty s then acc.latest
        else
          match acc.latest with
          | none => some (parseTs s)
          | some m => if m < parseTs s then some (parseTs s) else some m
      | none => acc.latest
    else acc.latest
  { added := acc.added + (if isNew then 1 else 0),
    skipped := acc.skipped + (if truthyId && !res.1.2 then 1 else 0),
    latest := latest',
    db := res.2 }

/-- The whole `for log in logs:` loop for one profile. -/
def processLogs (parseTs : String → Int) (now : Int) (profile_id : String)
    (db : Db) (logs : List Payload) : IngestAcc :=
  logs.foldl (ingestStep parseTs now profile_id)
    { added := 0, skipped := 0, latest := none, db := db }

/-- The body of the per-profile `try:` block of `fetch_logs` (`scheduler.py`
lines 61-171), acting on the running `(stats, store)` pair: failures are
counted and leave the store alone; an empty 200 response only counts the
profile successful; otherwise the logs are ingested and, when at least one
new record with a tracked timestamp was stored, the fetch cursor is set to
the maximum new-record timestamp. -/
def profileStep (parseTs : String → Int) (now : Int) (profile_id : String)
    (res : FetchResult) (acc : CycleStats × Db) : CycleStats × Db :=
  let stats := acc.1
  let db := acc.2
  match res with
  | .httpError _ => ({ stats with failed := stats.failed + 1 }, db)
  | .exn => ({ stats with failed := stats.failed + 1 }, db)
  | .ok logs =>
    if logs.isEmpty then
      ({ stats with successful := stats.successful + 1 }, db)
    else
      let r := processLogs parseTs now profile_id db logs
      let db' := match r.latest with
        | some t => if 0 < r.added then update_fetch_status now r.db profile_id t r.added
                    else r.db
        | none => r.db
      ({ stats with total_added := stats.total_added + r.added,
                    total_skipped := stats.total_skipped + r.skipped,
                    successful := stats.successful + 1 }, db')

/-- `fetch_logs` over the configured profile list.  The upstream is modelled
as a function from profile id to that cycle's `FetchResult`. -/
def fetch_logs (parseTs : String → Int) (now : Int) (results : String → FetchResult)
    (profile_ids : List String) (db : Db) : CycleStats × Db :=
  profile_ids.foldl (fun acc pid => profileStep parseTs now pid (results pid) acc)
    ({ total_added := 0, total_skipped := 0, successful := 0, failed := 0 }, db)

/-- Store evolution of a single-profile cycle (the stats counters do not
influence the store). -/
def cycleDb (parseTs : String → Int) (now : Int) (profile_id : String)
    (res : FetchResult) (db : Db) : Db :=
  (profileStep parseTs now profile_id res
    ({ total_added := 0, total_skipped := 0, successful := 0, failed := 0 }, db)).2

/-- Number of new (non-duplicate) records stored by a single-profile cycle. -/
def cycle_added (parseTs : String → Int) (now : Int) (profile_id : String)
    (res : FetchResult) (db : Db) : Nat :=
  (profileStep parseTs now profile_id res
    ({ total_added := 0, total_skipped := 0, successful := 0, failed := 0 }, db)).1.total_added

/-- A sequence of ingestion cycles over one source; each cycle has its own
clock value and upstream response. -/
def runCycles (parseTs : String → Int) (profile_id : String) :
    List (Int × FetchResult) → Db → Db
  | [], db => db
  | (now, res) :: rest, db =>
      runCycles parseTs profile_id rest (cycleDb parseTs now profile_id res db)

/-- The fetch-window contract of one cycle: the upstream is queried with
`from = cursor`, so every returned record that carries a (parseable)
timestamp lies at or after the cursor read at the start of the cycle. -/
def windowRespects (parseTs : String → Int) (profile_id : String)
    (db : Db) (res : FetchResult) : Prop :=
  ∀ c, get_last_fetch_timestamp db profile_id = some c →
    ∀ logs, res = FetchResult.ok logs →
      ∀ log ∈ logs, ∀ s, log.timestamp = some s → strIsEmpty s = false → c ≤ parseTs s

/-- The fetch-window contract along a whole sequence of cycles. -/
def WindowOk (parseTs : String → Int) (profile_id : String) :
    Db → List (Int × FetchResult) → Prop
  | _, [] => True
  | db, (now, res) :: rest =>
      windowRespects parseTs profile_id db res ∧
      WindowOk parseTs profile_id (cycleDb parseTs now profile_id res db) rest

/-! ## Aggregation engine (`models.py`, stats functions) -/

/-- Shared application of the compiled exclusion filter, as done by
`get_logs` (lines 576-581), `get_logs_stats` and `get_stats_overview`:
`if exclude_domains:` then filter when the compiler returned a condition. -/
def apply_domain_exclusions (exclude_domains : List String) (rows : List Row) : List Row :=
  if exclude_domains.isEmpty then rows
  else
    match build_domain_exclusion_filter exclude_domains with
    | some f => rows.filter (fun r => f r.domain)
    | none => rows

/-- `if profile_filter and profile_filter.strip() and profile_filter != "all":`
(the guard used by `get_stats_overview`, `get_stats_timeseries` and
`get_top_domains`). -/
def profileActive : Option String → Bool
  | some p => !strIsEmpty p && !strIsEmpty (trimStr p) && !(p == "all")
  | none => false

/-- `if profile_filter and profile_filter.strip():` (the guard used by
`get_logs_stats` and `get_logs`, which lack the `!= "all"` test). -/
def profileActiveNoAll : Option String → Bool
  | some p => !strIsEmpty p && !strIsEmpty (trimStr p)
  | none => false

/-- The `time_deltas` lookup table shared by the read paths, in seconds. -/
def time_deltas : String → Option Int
  | "30m" => some 1800
  | "1h" => some 3600
  | "6h" => some 21600
  | "24h" => some 86400
  | "7d" => some 604800
  | "30d" => some 2592000
  | "3m" => some 7776000
  | _ => none

/-- `if time_range != "all":` apply `timestamp >= now - delta` when the token
is in `time_deltas`, otherwise leave the query unfiltered. -/
def applyTimeRange (now : Int) (time_range : String) (rows : List Row) : List Row :=
  if time_range == "all" then rows
  else
    match time_deltas time_range with
    | some d => rows.filter (fun r => decide (now - d ≤ r.timestamp))
    | none => rows

/-- Round-half-to-even to an integer (the rounding Python documents for
`round`; float representation artifacts are outside the rational model). -/
def roundHalfEven (q : ℚ) : ℤ :=
  let f := ⌊q⌋
  let r := q - f
  if r < 1/2 then f
  else if 1/2 < r then f + 1
  else if f % 2 = 0 then f else f + 1

/-- Python `round(x, 1)` on the rational model. -/
def round1 (q : ℚ) : ℚ := (roundHalfEven (q * 10) : ℚ) / 10

/-- The `hours_map` of `get_stats_overview` (lines 885-895), with its
`.get(time_range, 24)` default. -/
def hours_map : String → ℚ
  | "30m" => 1/2
  | "1h" => 1
  | "6h" => 6
  | "24h" => 24
  | "7d" => 168
  | "30d" => 720
  | "3m" => 2160
  | "all" => 1
  | _ => 24

/-- Result record of `get_stats_overview`.  The best-effort
`most_active_device` and `top_blocked_domain` fields depend on an unspecified
row order of `.first()` on an unordered query and are independent of the
fields below, so they are not part of the model. -/
structure StatsOverview where
  total_queries : Nat
  blocked_queries : Nat
  allowed_queries : Nat
  blocked_percentage : ℚ
  queries_per_hour : ℚ
deriving Repr, DecidableEq

/-- `get_stats_overview` (`models.py` lines 818-984): exclusion filter, then
profile filter (skipping `"all"`), then time-range cutoff; counts use
`DNSLog.blocked.is_(True)`. -/
def get_stats_overview (now : Int) (profile_filter : Option String)
    (time_range : String) (exclude_domains : List String) (db : Db) : StatsOverview :=
  let q1 := apply_domain_exclusions exclude_domains db.rows
  let q2 := if profileActive profile_filter
    then q1.filter (fun r => r.profile_id == profile_filter) else q1
  let q := applyTimeRange now time_range q2
  let total_queries := q.length
  let blocked_queries := (q.filter (fun r => r.blocked)).length
  let allowed_queries := total_queries - blocked_queries
  let blocked_percentage : ℚ :=
    if 0 < total_queries then (blocked_queries : ℚ) / (total_queries : ℚ) * 100 else 0
  let hours := hours_map time_range
  let queries_per_hour : ℚ := if 0 < hours then (total_queries : ℚ) / hours else 0
  { total_queries := total_queries, blocked_queries := blocked_queries,
    allowed_queries := allowed_queries,
    blocked_percentage := round1 blocked_percentage,
    queries_per_hour := round1 queries_per_hour }

/-- Result record of `get_logs_stats`. -/
structure LogsStats where
  total : Nat
  blocked : Nat
  allowed : Nat
  blocked_percentage : ℚ
  allowed_percentage : ℚ
  profile_id : Option String
deriving Repr, DecidableEq

/-- `get_logs_stats` (`models.py` lines 677-766).  The blocked count is
computed by `query.filter(DNSLog.blocked is True).count()`: `DNSLog.blocked
is True` is a Python identity test between a column object and `True`, which
evaluates to the constant `False`, and SQLAlchemy renders the boolean
`False` as the SQL condition `false` — so this count is over the constantly
false predicate. -/
def get_logs_stats (now : Int) (profile_filter : Option String)
    (time_range : String) (exclude_domains : List String) (db : Db) : LogsStats :=
  let q1 := apply_domain_exclusions exclude_domains db.rows
  let q2 := if profileActiveNoAll profile_filter
    then q1.filter (fun r => r.profile_id == profile_filter) else q1
  let q := applyTimeRange now time_range q2
  let total_count := q.length
  let blocked_count := (q.filter (fun _ => false)).length
  let allowed_count := total_count - blocked_count
  let blocked_percentage : ℚ :=
    if 0 < total_count then (blocked_count : ℚ) / (total_count : ℚ) * 100 else 0
  let allowed_percentage : ℚ :=
    if 0 < total_count then (allowed_count : ℚ) / (total_count : ℚ) * 100 else 0
  { total := total_count, blocked := blocked_count, allowed := allowed_count,
    blocked_percentage := round1 blocked_percentage,
    allowed_percentage := round1 allowed_percentage,
    profile_id := profile_filter }

/-! ## Time series (`models.py`, `get_stats_timeseries`, 24h branch) -/

/-- One data point of the status-grouped time series. -/
structure TsPoint where
  timestamp : Int
  total_queries : Nat
  blocked_queries : Nat
  allowed_queries : Nat
deriving Repr, DecidableEq

/-- The profile condition of `get_stats_timeseries` as a row predicate. -/
def profileCond (profile_filter : Option String) (r : Row) : Bool :=
  if profileActive profile_filter then r.profile_id == profile_filter else true

/-- `get_stats_timeseries` for `time_range="24h"` and the default
`group_by="status"` (`models.py` lines 1053-1057 and 1139-1229):
`start_time = now - 24h`, 24 hourly intervals; each displayed timestamp is
the interval start truncated to the hour (`replace(minute=0, second=0,
microsecond=0)`, i.e. floor division by 3600); each bucket counts the base
query (time cutoff plus profile filter) restricted to
`[interval_start, interval_end)`. -/
def get_stats_timeseries_24h (now : Int) (profile_filter : Option String)
    (db : Db) : List TsPoint :=
  let start_time : Int := now - 86400
  let base := db.rows.filter
    (fun r => decide (start_time ≤ r.timestamp) && profileCond profile_filter r)
  (List.range 24).map (fun (i : Nat) =>
    let interval_start : Int := start_time + 3600 * (i : Int)
    let interval_end : Int := interval_start + 3600
    let display : Int := 3600 * (interval_start / 3600)
    let bucket := base.filter
      (fun r => decide (interval_start ≤ r.timestamp) && decide (r.timestamp < interval_end))
    let total := bucket.length
    let blocked := (bucket.filter (fun r => r.blocked)).length
    { timestamp := display, total_queries := total,
      blocked_queries := blocked, allowed_queries := total - blocked })

/-- The nominal hour count per range token exactly as listed in the claim
under test ("30m→0.5, 1h→1, 6h→6, 24h→24, 7d→168, 30d→720, 3m→2160,
all→1"); kept separate from `hours_map` so the code table can be compared
against the spec table. -/
def specNominalHours : String → ℚ
  | "30m" => 1/2
  | "1h" => 1
  | "6h" => 6
  | "24h" => 24
  | "7d" => 168
  | "30d" => 720
  | "3m" => 2160
  | "all" => 1
  | _ => 24

/-! ## Sample data for concrete evaluations -/

/-- A payload with every key absent. -/
def emptyPayload : Payload :=
  { timestamp := none, domain := none, action := none, status := none,
    device := none, client_ip := none, clientIp := none, query_type := none,
    blocked := none, profile_id := none }

/-- A minimal allowed-row with a given id and domain. -/
def mkRow (n : Nat) (d : String) : Row :=
  { id := n, timestamp := 0, domain := d, action := "default", device := none,
    client_ip := none, query_type := "A", blocked := false, profile_id := none,
    tld := none, data := emptyPayload }

/-- A store holding exactly one blocked record. -/
def sampleStatsDb : Db :=
  { rows := [{ id := 1, timestamp := 0, domain := "ads.example.com",
               action := "blocked", device := none,
               client_ip := some "192.0.2.1", query_type := "A",
               blocked := true, profile_id := some "prof1",
               tld := some "example.com", data := emptyPayload }],
    nextId := 2, fetch_status := [] }

/-! ## Claim C4 -/

/-- C4: for the record set {a.apple.com, apple.com, tracking.net,
x.tracking.net, ads.com}, the exclusion pattern list
["*.apple.com", "*tracking*"] retains exactly {apple.com, ads.com}; and the
compiled filter for this list keeps a domain exactly when it
case-insensitively matches neither wildcard pattern (with * standing for any
run of characters). -/
theorem exclusion_filter_retained_set :
    ((apply_domain_exclusions ["*.apple.com", "*tracking*"]
      [mkRow 1 "a.apple.com", mkRow 2 "apple.com", mkRow 3 "tracking.net",
       mkRow 4 "x.tracking.net", mkRow 5 "ads.com"]).map (fun r => r.domain))
      = ["apple.com", "ads.com"] ∧
    (∀ d : String,
      (build_domain_exclusion_filter ["*.apple.com", "*tracking*"]).getD (fun _ => true) d
        = !(matchesWildcard "*.apple.com" d || matchesWildcard "*tracking*" d)) := by
  refine ⟨by decide, fun d => ?_⟩
  have hb : build_domain_exclusion_filter ["*.apple.com", "*tracking*"]
      = some (fun d =>
          !(List.any ["*.apple.com", "*tracking*"] (fun p => matchesWildcard p d))) := rfl
  rw [hb]
  simp [Option.getD, List.any]

/-! ## Claim C7 -/

/-- C7: the degenerate wildcard patterns *, ** and *.* are dropped without
raising: compiling ["*"] yields the no-filter value None, so the returned
record set equals the input set, and the remaining patterns of a mixed list
still apply. -/
theorem degenerate_wildcards_dropped :
    build_domain_exclusion_filter ["*"] = none ∧
    build_domain_exclusion_filter ["*", "**", "*.*"] = none ∧
    (∀ rows : List Row, apply_domain_exclusions ["*"] rows = rows) ∧
    ((apply_domain_exclusions ["*", "**", "*.*", "ads.com"]
        [mkRow 1 "ads.com", mkRow 2 "news.com"]).map (fun r => r.domain)) = ["news.com"] :=
  ⟨rfl, rfl, fun _ => rfl, by decide⟩

/-! ## Claim C3 -/

/-- C3: on a store holding exactly one blocked record and no filters,
get_stats_overview reports the blocked count correctly (blocked = 1,
percentage 100.0), while get_logs_stats — whose blocked count is the
`DNSLog.blocked is True` comparison, the constant false condition — reports
blocked = 0, allowed = 1 and blocked_percentage = 0, contradicting the claim
that both stats functions count the records with blocked = true. -/
theorem logs_stats_blocked_divergence :
    (sampleStatsDb.rows.filter (fun r => r.blocked)).length = 1 ∧
    (get_stats_overview 0 none "all" [] sampleStatsDb).total_queries = 1 ∧
    (get_stats_overview 0 none "all" [] sampleStatsDb).blocked_queries = 1 ∧
    (get_stats_overview 0 none "all" [] sampleStatsDb).allowed_queries = 0 ∧
    (get_stats_overview 0 none "all" [] sampleStatsDb).blocked_percentage = 100 ∧
    (get_logs_stats 0 none "all" [] sampleStatsDb).total = 1 ∧
    (get_logs_stats 0 none "all" [] sampleStatsDb).blocked = 0 ∧
    (get_logs_stats 0 none "all" [] sampleStatsDb).allowed = 1 ∧
    (get_logs_stats 0 none "all" [] sampleStatsDb).blocked_percentage = 0 := by
  refine ⟨by decide, by decide, by decide, by decide, ?_, by decide, by decide, by decide, ?_⟩
  · norm_num [get_stats_overview, apply_domain_exclusions, applyTimeRange, profileActive,
      sampleStatsDb, round1, roundHalfEven]
  · norm_num [get_logs_stats, apply_domain_exclusions, applyTimeRange, profileActiveNoAll,
      sampleStatsDb, round1, roundHalfEven]

/-! ## Claim C6 -/

/-- C6 counterexample: on the input "A.B" the derivation does not keep the
last two dot-separated labels case-folded to lowercase (that would be
"a.b"): the single-letter final label fails the regex, so the input is
returned unchanged. -/
theorem extract_tld_not_case_folding_last_two :
    extract_tld (TldInput.pyStr "A.B") = TldInput.pyStr "A.B" ∧
    specLastTwoLabels "A.B" = "a.b" ∧
    extract_tld (TldInput.pyStr "A.B") ≠ TldInput.pyStr (specLastTwoLabels "A.B") := by
  decide

/-- C6 (amended): the documented examples hold; None, non-string and empty
input come back unchanged without raising; whenever the lowercased input
matches the (label).(tld) pattern at its end the result is the last two
dot-separated labels case-folded to lowercase; and every other input is
returned unchanged. -/
theorem extract_tld_amended :
    extract_tld (TldInput.pyStr "gateway.icloud.com") = TldInput.pyStr "icloud.com" ∧
    extract_tld (TldInput.pyStr "foo.co.uk") = TldInput.pyStr "co.uk" ∧
    extract_tld TldInput.pyNone = TldInput.pyNone ∧
    extract_tld TldInput.nonString = TldInput.nonString ∧
    extract_tld (TldInput.pyStr "") = TldInput.pyStr "" ∧
    (∀ d g : String, tldOfLower (lowerStr d) = some g →
      extract_tld (TldInput.pyStr d) = TldInput.pyStr g ∧ g = specLastTwoLabels d) ∧
    (∀ d : String, strIsEmpty d = false → tldOfLower (lowerStr d) = none →
      extract_tld (TldInput.pyStr d) = TldInput.pyStr d) := by
  refine ⟨by decide, by decide, rfl, rfl, by decide, ?_, ?_⟩
  · intro d g h
    have hne : strIsEmpty d = false := by
      obtain ⟨cs⟩ := d
      cases cs with
      | nil => simp [lowerStr, tldOfLower, splitDot] at h
      | cons c cs => rfl
    constructor
    · simp [extract_tld, hne, extractTldStr, h]
    · rcases hrev : ((splitDot (lowerStr d).data).map (fun g => (⟨g⟩ : String))).reverse with
        _ | ⟨t, _ | ⟨l, rest⟩⟩
      · simp [tldOfLower, hrev] at h
      · simp [tldOfLower, hrev] at h
      · rw [tldOfLower, hrev] at h
        by_cases hv : validSecondLabel l && validTldLabel t
        · simp [hv] at h
          simp [specLastTwoLabels, hrev, ← h]
        · simp [hv] at h
  · intro d hne h
    simp [extract_tld, hne, extractTldStr, h]

/-- C6 witness: the successful-match branch of the amended claim evaluated
at a concrete mixed-case domain. -/
theorem extract_tld_amended_witness :
    extract_tld (TldInput.pyStr "Mail.Example.COM") = TldInput.pyStr "example.com" ∧
    ("example.com" : String) = specLastTwoLabels "Mail.Example.COM" :=
  extract_tld_amended.2.2.2.2.2.1 "Mail.Example.COM" "example.com" (by decide)

/-! ## Claim C9 -/

/-- C9: for every time-range token the overview divides the total by the
fixed nominal hour count of the token (30m→0.5, 1h→1, 6h→6, 24h→24, 7d→168,
30d→720, 3m→2160, all→1), rounded to one decimal — for every store, i.e.
never by the actual observed span. -/
theorem queries_per_hour_nominal :
    ∀ time_range : String,
      time_range ∈ ["30m", "1h", "6h", "24h", "7d", "30d", "3m", "all"] →
      ∀ (now : Int) (profile_filter : Option String) (exclude_domains : List String) (db : Db),
        (get_stats_overview now profile_filter time_range exclude_domains db).queries_per_hour
          = round1
              (((get_stats_overview now profile_filter time_range exclude_domains db).total_queries : ℚ)
                / specNominalHours time_range) := by
  intro tr htr now prof excl db
  simp only [List.mem_cons, List.mem_singleton, List.not_mem_nil, or_false] at htr
  rcases htr with rfl | rfl | rfl | rfl | rfl | rfl | rfl | rfl <;>
    norm_num [get_stats_overview, hours_map, specNominalHours]

/-- C9 witness: the "all" token on the one-record sample store — the divisor
is the nominal fallback 1, regardless of the observed span. -/
theorem queries_per_hour_nominal_witness :
    (get_stats_overview 0 none "all" [] sampleStatsDb).queries_per_hour
      = round1 (((get_stats_overview 0 none "all" [] sampleStatsDb).total_queries : ℚ)
          / specNominalHours "all") :=
  queries_per_hour_nominal "all" (by decide) 0 none [] sampleStatsDb

/-! ## Claim C1 -/

/-- C1: when a row with the identity key (timestamp, domain, client_ip) of
the incoming payload already exists, add_log returns that row id with
is_new = false and leaves the store unchanged; consequently inserting the
same raw record (one carrying a timestamp) twice yields is_new = false the
second time and leaves the store of the first insertion unchanged, so the
row count is unchanged. -/
theorem add_log_dedup_idempotent :
    (∀ (parseTs : String → Int) (now : Int) (db : Db) (log : Payload) (r : Row),
      db.rows.find? (dnsKeyMatches (tsOf parseTs now log) log.domain
        (pyOrStr log.client_ip log.clientIp)) = some r →
      add_log parseTs now db log = ((some r.id, false), db)) ∧
    (∀ (parseTs : String → Int) (now1 now2 : Int) (db : Db) (log : Payload) (s : String),
      log.timestamp = some s → strIsEmpty s = false →
      (add_log parseTs now2 (add_log parseTs now1 db log).2 log).1.2 = false ∧
      (add_log parseTs now2 (add_log parseTs now1 db log).2 log).2
        = (add_log parseTs now1 db log).2) := by
  constructor
  · intro parseTs now db log r h
    simp only [add_log, h]
  · intro parseTs now1 now2 db log s hts hne
    have hts1 : tsOf parseTs now1 log = parseTs s := by simp [tsOf, hts, hne]
    have hts2 : tsOf parseTs now2 log = parseTs s := by simp [tsOf, hts, hne]
    cases hfind : db.rows.find? (dnsKeyMatches (parseTs s) log.domain
        (pyOrStr log.client_ip log.clientIp)) with
    | some r =>
      have h1 : add_log parseTs now1 db log = ((some r.id, false), db) := by
        simp only [add_log, hts1, hfind]
      rw [h1]
      have h2 : add_log parseTs now2 db log = ((some r.id, false), db) := by
        simp only [add_log, hts2, hfind]
      rw [h2]
      exact ⟨rfl, rfl⟩
    | none =>
      cases hdom : log.domain with
      | none =>
        rw [hdom] at hfind
        have h1 : add_log parseTs now1 db log = ((none, false), db) := by
          simp only [add_log, hts1, hfind, hdom]
        rw [h1]
        have h2 : add_log parseTs now2 db log = ((none, false), db) := by
          simp only [add_log, hts2, hfind, hdom]
        rw [h2]
        exact ⟨rfl, rfl⟩
      | some dom =>
        rw [hdom] at hfind
        have h1 : add_log parseTs now1 db log =
            ((some db.nextId, true),
             { db with
                rows := db.rows ++
                  [{ id := db.nextId, timestamp := parseTs s, domain := dom,
                     action := actionOf log,
                     device := truthyStr log.device,
                     client_ip := pyOrStr log.client_ip log.clientIp,
                     query_type := log.query_type.getD "A",
                     blocked := log.blocked.getD false || actionOf log == "blocked"
                       || log.status == some "blocked",
                     tld := if strIsEmpty dom then none else some (extractTldStr dom),
                     profile_id := log.profile_id, data := log }],
                nextId := db.nextId + 1 }) := by
          simp only [add_log, hts1, hfind, hdom]
        rw [h1]
        have hfind2 : ((db.rows ++
            [{ id := db.nextId, timestamp := parseTs s, domain := dom,
               action := actionOf log,
               device := truthyStr log.device,
               client_ip := pyOrStr log.client_ip log.clientIp,
               query_type := log.query_type.getD "A",
               blocked := log.blocked.getD false || actionOf log == "blocked"
                 || log.status == some "blocked",
               tld := if strIsEmpty dom then none else some (extractTldStr dom),
               profile_id := log.profile_id, data := log }] : List Row).find?
              (dnsKeyMatches (parseTs s) log.domain
                (pyOrStr log.client_ip log.clientIp))) = some
            { id := db.nextId, timestamp := parseTs s, domain := dom,
              action := actionOf log,
              device := truthyStr log.device,
              client_ip := pyOrStr log.client_ip log.clientIp,
              query_type := log.query_type.getD "A",
              blocked := log.blocked.getD false || actionOf log == "blocked"
                || log.status == some "blocked",
              tld := if strIsEmpty dom then none else some (extractTldStr dom),
              profile_id := log.profile_id, data := log } := by
          rw [hdom, List.find?_append, hfind]
          simp [List.find?, dnsKeyMatches]
        constructor
        · simp only [add_log, hts2]
          rw [hfind2]
        · simp only [add_log, hts2]
          rw [hfind2]

/-- Sample fixtures for the C1 witness: a store already holding the row a
duplicate payload hashes to. -/
def dupPayload : Payload :=
  { emptyPayload with timestamp := some "T10", domain := some "x.com",
                      client_ip := some "1.2.3.4" }

/-- The stored row matching `dupPayload` under the parser `fun _ => 10`. -/
def dupRow : Row :=
  { id := 7, timestamp := 10, domain := "x.com", action := "default",
    device := none, client_ip := some "1.2.3.4", query_type := "A",
    blocked := false, profile_id := none, tld := none, data := emptyPayload }

/-- A store holding exactly `dupRow`. -/
def dupDb : Db := { rows := [dupRow], nextId := 8, fetch_status := [] }

/-- C1 witness: both parts of the dedup theorem evaluated on a concrete
store and payload. -/
theorem add_log_dedup_idempotent_witness :
    add_log (fun _ => 10) 0 dupDb dupPayload = ((some 7, false), dupDb) ∧
    (add_log (fun _ => 10) 99 (add_log (fun _ => 10) 0 dupDb dupPayload).2 dupPayload).1.2
      = false ∧
    (add_log (fun _ => 10) 99 (add_log (fun _ => 10) 0 dupDb dupPayload).2 dupPayload).2
      = (add_log (fun _ => 10) 0 dupDb dupPayload).2 :=
  ⟨add_log_dedup_idempotent.1 (fun _ => 10) 0 dupDb dupPayload dupRow (by decide),
   (add_log_dedup_idempotent.2 (fun _ => 10) 0 99 dupDb dupPayload "T10" rfl (by decide)).1,
   (add_log_dedup_idempotent.2 (fun _ => 10) 0 99 dupDb dupPayload "T10" rfl (by decide)).2⟩

/-! ## Claim C10 -/

/-- C10: a payload whose timestamp field is absent or empty gets the current
insertion time as its record timestamp before the identity key is computed,
so two identical timestamp-less payloads inserted at different (fresh)
instants are both stored as new rows: duplicate prevention does not apply to
them. -/
theorem add_log_missing_timestamp_uses_now :
    ∀ (parseTs : String → Int) (now1 now2 : Int) (db : Db) (log : Payload) (dom : String),
      (log.timestamp = none ∨ log.timestamp = some "") →
      log.domain = some dom →
      db.rows.find? (dnsKeyMatches now1 log.domain (pyOrStr log.client_ip log.clientIp)) = none →
      db.rows.find? (dnsKeyMatches now2 log.domain (pyOrStr log.client_ip log.clientIp)) = none →
      now1 ≠ now2 →
      tsOf parseTs now1 log = now1 ∧
      (add_log parseTs now1 db log).1.2 = true ∧
      (add_log parseTs now2 (add_log parseTs now1 db log).2 log).1.2 = true ∧
      (add_log parseTs now2 (add_log parseTs now1 db log).2 log).2.rows.length
        = db.rows.length + 2 := by
  intro parseTs now1 now2 db log dom hts hdom hfind1 hfind2 hne
  have hts1 : tsOf parseTs now1 log = now1 := by
    rcases hts with h | h <;> simp [tsOf, h, strIsEmpty]
  have hts2 : tsOf parseTs now2 log = now2 := by
    rcases hts with h | h <;> simp [tsOf, h, strIsEmpty]
  rw [hdom] at hfind1 hfind2
  refine ⟨hts1, ?_, ?_, ?_⟩
  · simp only [add_log, hts1, hdom, hfind1]
  · simp only [add_log, hts1, hts2, hdom, hfind1]
    rw [List.find?_append, hfind2]
    have h12 : (now1 == now2) = false := by simp [hne]
    simp [List.find?, dnsKeyMatches, h12]
  · simp only [add_log, hts1, hts2, hdom, hfind1]
    rw [List.find?_append, hfind2]
    have h12 : (now1 == now2) = false := by simp [hne]
    simp [List.find?, dnsKeyMatches, h12]

/-- Timestamp-less payload for the C10 witness. -/
def noTsPayload : Payload := { emptyPayload with domain := some "y.com" }

/-- C10 witness: inserting the same timestamp-less payload at instants 5 and
6 into the empty store yields two new rows. -/
theorem add_log_missing_timestamp_uses_now_witness :
    tsOf (fun _ => 0) 5 noTsPayload = 5 ∧
    (add_log (fun _ => 0) 5 Db.empty noTsPayload).1.2 = true ∧
    (add_log (fun _ => 0) 6 (add_log (fun _ => 0) 5 Db.empty noTsPayload).2 noTsPayload).1.2
      = true ∧
    (add_log (fun _ => 0) 6 (add_log (fun _ => 0) 5 Db.empty noTsPayload).2 noTsPayload).2.rows.length
      = Db.empty.rows.length + 2 :=
  add_log_missing_timestamp_uses_now (fun _ => 0) 5 6 Db.empty noTsPayload "y.com"
    (Or.inl rfl) rfl (by decide) (by decide) (by decide)

/-! ## Claim C5 -/

/-- Count of rows with `a <= timestamp < b` passing a base predicate — the
per-bucket count of the time series, in the form used by the coverage
lemmas. -/
def windowCount (p : Row → Bool) (l : List Row) (a b : Int) : Nat :=
  (l.filter (fun r => p r && decide (a ≤ r.timestamp) && decide (r.timestamp < b))).length

/-- Splitting a half-open counting window at an interior point. -/
theorem windowCount_split (p : Row → Bool) (l : List Row) {a b c : Int}
    (hab : a ≤ b) (hbc : b ≤ c) :
    windowCount p l a c = windowCount p l a b + windowCount p l b c := by
  induction l with
  | nil => rfl
  | cons r t ih =>
    simp only [windowCount, List.filter_cons] at ih ⊢
    by_cases hp : p r <;> by_cases h1 : a ≤ r.timestamp <;>
      by_cases h2 : r.timestamp < b <;> by_cases h3 : b ≤ r.timestamp <;>
      by_cases h4 : r.timestamp < c <;>
      simp [hp, h1, h2, h3, h4] <;> omega

/-- The bucket counts of `n` consecutive hourly windows sum to the count of
the whole `n`-hour window. -/
theorem windowCount_sum (p : Row → Bool) (l : List Row) (s : Int) (n : Nat) :
    ((List.range n).map
      (fun (i : Nat) => windowCount p l (s + 3600 * (i : Int)) (s + 3600 * (i : Int) + 3600))).sum
      = windowCount p l s (s + 3600 * (n : Int)) := by
  induction n with
  | zero =>
    simp only [List.range_zero, List.map_nil, List.sum_nil, Nat.cast_zero, mul_zero, add_zero]
    symm
    rw [windowCount, List.length_eq_zero, List.filter_eq_nil_iff]
    intro r hr
    simp only [Bool.and_eq_true, decide_eq_true_eq, not_and, and_imp]
    intro _ h1 h2
    omega
  | succ n ih =>
    rw [List.range_succ, List.map_append, List.sum_append, ih]
    simp only [List.map_cons, List.map_nil, List.sum_cons, List.sum_nil, add_zero]
    rw [show ((n + 1 : Nat) : Int) = (n : Int) + 1 by push_cast; ring]
    rw [show s + 3600 * ((n : Int) + 1) = s + 3600 * (n : Int) + 3600 by ring]
    exact (windowCount_split p l
      (by have : (0:Int) ≤ 3600 * (n:Int) := by positivity
          omega)
      (by omega)).symm

/-- C5: for the 24h token the series has exactly 24 buckets, their displayed
timestamps are strictly increasing and exactly one hour (3600 s) apart, and
the per-bucket totals sum to the number of records satisfying the same
filters in the window [now - 24h, now). -/
theorem timeseries_24h_bucket_coverage (now : Int) (profile_filter : Option String) (db : Db) :
    (get_stats_timeseries_24h now profile_filter db).length = 24 ∧
    List.Chain' (fun a b => b = a + 3600)
      ((get_stats_timeseries_24h now profile_filter db).map (fun p => p.timestamp)) ∧
    ((get_stats_timeseries_24h now profile_filter db).map (fun p => p.total_queries)).sum
      = (db.rows.filter (fun r => profileCond profile_filter r
          && decide (now - 86400 ≤ r.timestamp) && decide (r.timestamp < now))).length := by
  refine ⟨?_, ?_, ?_⟩
  · simp [get_stats_timeseries_24h]
  · have hmap : (get_stats_timeseries_24h now profile_filter db).map (fun p => p.timestamp)
        = (List.range 24).map
            (fun (i : Nat) => 3600 * ((now - 86400) / 3600) + 3600 * (i : Int)) := by
      simp only [get_stats_timeseries_24h, List.map_map]
      refine List.map_congr_left ?_
      intro i _
      show 3600 * ((now - 86400 + 3600 * (i : Int)) / 3600) = _
      rw [show now - 86400 + 3600 * (i : Int) = now - 86400 + (i : Int) * 3600 by ring]
      rw [Int.add_mul_ediv_right _ _ (by norm_num : (3600:Int) ≠ 0)]
      ring
    rw [hmap, List.chain'_map]
    have h24 : (24 : Nat) = Nat.succ 23 := rfl
    rw [h24, List.chain'_range_succ]
    intro m hm
    push_cast
    ring
  · have hmap2 : (get_stats_timeseries_24h now profile_filter db).map (fun p => p.total_queries)
        = (List.range 24).map (fun (i : Nat) =>
            windowCount (profileCond profile_filter) db.rows
              (now - 86400 + 3600 * (i : Int)) (now - 86400 + 3600 * (i : Int) + 3600)) := by
      simp only [get_stats_timeseries_24h, List.map_map]
      refine List.map_congr_left ?_
      intro i _
      show (List.filter _ (List.filter _ db.rows)).length = _
      rw [List.filter_filter, windowCount]
      congr 1
      refine List.filter_congr ?_
      intro r _
      by_cases hsi : now - 86400 + 3600 * (i : Int) ≤ r.timestamp
      · have hs : now - 86400 ≤ r.timestamp := by
          have : (0:Int) ≤ 3600 * (i : Int) := by positivity
          omega
        simp [hsi, hs, Bool.and_comm, Bool.and_assoc, Bool.and_left_comm]
      · simp [hsi]
    rw [hmap2, windowCount_sum,
      show now - 86400 + 3600 * ((24:Nat) : Int) = now from by push_cast; ring]
    rfl

/-! ## Scheduler lemmas (for claims C2 and C8) -/

/-- `add_log` never touches the `fetch_status` table. -/
theorem add_log_fetch_status (parseTs : String → Int) (now : Int) (db : Db) (log : Payload) :
    (add_log parseTs now db log).2.fetch_status = db.fetch_status := by
  rcases h : db.rows.find? (dnsKeyMatches (tsOf parseTs now log) log.domain
      (pyOrStr log.client_ip log.clientIp)) with _ | r
  · rcases hd : log.domain with _ | dom
    · rw [hd] at h
      simp [add_log, h, hd]
    · rw [hd] at h
      simp [add_log, h, hd]
  · simp [add_log, h]

/-- The store after one ingestion step is the store after the tagged insert. -/
theorem ingestStep_db (parseTs : String → Int) (now : Int) (pid : String)
    (acc : IngestAcc) (log : Payload) :
    (ingestStep parseTs now pid acc log).db
      = (add_log parseTs now acc.db { log with profile_id := some pid }).2 := rfl

/-- The ingestion loop never touches the `fetch_status` table. -/
theorem foldl_ingest_fetch_status (parseTs : String → Int) (now : Int) (pid : String) :
    ∀ (logs : List Payload) (acc : IngestAcc),
    ((logs.foldl (ingestStep parseTs now pid) acc).db).fetch_status = acc.db.fetch_status := by
  intro logs
  induction logs with
  | nil => intro acc; rfl
  | cons log rest ih =>
    intro acc
    rw [List.foldl_cons, ih, ingestStep_db, add_log_fetch_status]

/-- `processLogs` never touches the `fetch_status` table. -/
theorem processLogs_fetch_status (parseTs : String → Int) (now : Int) (pid : String)
    (db : Db) (logs : List Payload) :
    (processLogs parseTs now pid db logs).db.fetch_status = db.fetch_status :=
  foldl_ingest_fetch_status parseTs now pid logs _

/-- `update_fetch_status` never touches the `dns_logs` table. -/
theorem update_fetch_status_rows (now : Int) (db : Db) (pid : String) (t : Int) (cnt : Nat) :
    (update_fetch_status now db pid t cnt).rows = db.rows := by
  unfold update_fetch_status
  split <;> rfl

/-- Updating the first match of a predicate-preserving map is observed by a
subsequent lookup with the same predicate. -/
theorem find?_updateFirst_self (p : α → Bool) (f : α → α)
    (hpf : ∀ x, p x = true → p (f x) = true) :
    ∀ (l : List α) (x : α), l.find? p = some x → (updateFirst p f l).find? p = some (f x) := by
  intro l
  induction l with
  | nil => intro x hx; simp [List.find?] at hx
  | cons y ys ih =>
    intro x hx
    by_cases hy : p y
    · rw [List.find?_cons_of_pos _ hy] at hx
      injection hx with hx
      subst hx
      rw [updateFirst, if_pos hy, List.find?_cons_of_pos _ (hpf y hy)]
    · rw [List.find?_cons_of_neg _ hy] at hx
      rw [updateFirst, if_neg hy, List.find?_cons_of_neg _ hy]
      exact ih x hx

/-- Updating the first match of one predicate is invisible to a lookup with a
disjoint predicate. -/
theorem find?_updateFirst_other (p q : α → Bool) (f : α → α)
    (h : ∀ x, p x = true → q x = false ∧ q (f x) = false) :
    ∀ l : List α, (updateFirst p f l).find? q = l.find? q := by
  intro l
  induction l with
  | nil => rfl
  | cons y ys ih =>
    by_cases hy : p y
    · rw [updateFirst, if_pos hy, List.find?_cons_of_neg _ (by simp [(h y hy).2]),
        List.find?_cons_of_neg _ (by simp [(h y hy).1])]
    · rw [updateFirst, if_neg hy]
      by_cases hq : q y
      · rw [List.find?_cons_of_pos _ hq, List.find?_cons_of_pos _ hq]
      · rw [List.find?_cons_of_neg _ hq, List.find?_cons_of_neg _ hq]
        exact ih

/-- After `update_fetch_status` the cursor of the updated profile reads the
new watermark, for both the update and the create branch. -/
theorem update_fetch_status_cursor_self (now : Int) (db : Db) (pid : String)
    (t : Int) (cnt : Nat) :
    get_last_fetch_timestamp (update_fetch_status now db pid t cnt) pid = some t := by
  unfold update_fetch_status get_last_fetch_timestamp
  rcases hfind : db.fetch_status.find? (fun f => f.profile_id == pid) with _ | f <;> rw [hfind]
  · dsimp only
    rw [List.find?_append, hfind]
    simp [List.find?_cons, freshCursor]
  · dsimp only
    rw [find?_updateFirst_self (fun f => f.profile_id == pid) (updCursor now t cnt)
      (fun x hx => hx) _ f hfind]
    rfl

/-- `update_fetch_status` of one profile leaves every other cursor alone. -/
theorem update_fetch_status_cursor_other (now : Int) (db : Db) (pid : String)
    (t : Int) (cnt : Nat) (q : String) (hne : pid ≠ q) :
    get_last_fetch_timestamp (update_fetch_status now db pid t cnt) q
      = get_last_fetch_timestamp db q := by
  unfold update_fetch_status get_last_fetch_timestamp
  rcases hfind : db.fetch_status.find? (fun f => f.profile_id == pid) with _ | f <;> rw [hfind]
  · dsimp only
    rw [List.find?_append]
    have hq : ((freshCursor now pid t cnt).profile_id == q) = false := by
      simp [freshCursor, hne]
    simp [List.find?_cons, hq]
  · dsimp only
    rw [find?_updateFirst_other (fun f => f.profile_id == pid) (fun f => f.profile_id == q)
      (updCursor now t cnt)
      (fun x hx => by
        have hxq : x.profile_id = pid := by simpa using hx
        exact ⟨by simp [hxq, hne], by simp [updCursor, hxq, hne]⟩) db.fetch_status]

/-- One ingestion step keeps the tracked maximum timestamp at or above any
lower bound satisfied by the incoming payload timestamps. -/
theorem ingestStep_latest_ge (parseTs : String → Int) (now : Int) (pid : String)
    (acc : IngestAcc) (log : Payload) (c : Int)
    (hlog : ∀ s, log.timestamp = some s → strIsEmpty s = false → c ≤ parseTs s)
    (hacc : ∀ m, acc.latest = some m → c ≤ m) :
    ∀ m, (ingestStep parseTs now pid acc log).latest = some m → c ≤ m := by
  intro m hm
  unfold ingestStep at hm
  dsimp only at hm
  by_cases hnew : (match (add_log parseTs now acc.db { log with profile_id := some pid }).1.1 with
      | some n => !(n == 0)
      | none => false) && (add_log parseTs now acc.db { log with profile_id := some pid }).1.2
  · rw [if_pos hnew] at hm
    rcases hts : log.timestamp with _ | s
    · rw [show ({ log with profile_id := some pid } : Payload).timestamp = log.timestamp from rfl,
        hts] at hm
      dsimp only at hm
      exact hacc m hm
    · rw [show ({ log with profile_id := some pid } : Payload).timestamp = log.timestamp from rfl,
        hts] at hm
      dsimp only at hm
      by_cases hse : strIsEmpty s
      · rw [if_pos hse] at hm
        exact hacc m hm
      · rw [if_neg hse] at hm
        rcases hl : acc.latest with _ | m0
        · rw [hl] at hm
          dsimp only at hm
          injection hm with hm
          subst hm
          exact hlog s hts (by simpa using hse)
        · rw [hl] at hm
          dsimp only at hm
          by_cases hcmp : m0 < parseTs s
          · rw [if_pos hcmp] at hm
            injection hm with hm
            subst hm
            exact hlog s hts (by simpa using hse)
          · rw [if_neg hcmp] at hm
            injection hm with hm
            subst hm
            exact hacc m0 hl
  · rw [if_neg hnew] at hm
    exact hacc m hm

/-- The ingestion loop keeps the tracked maximum timestamp at or above any
lower bound satisfied by all payload timestamps of the batch. -/
theorem foldl_ingest_latest_ge (parseTs : String → Int) (now : Int) (pid : String) (c : Int) :
    ∀ (logs : List Payload) (acc : IngestAcc),
    (∀ log ∈ logs, ∀ s, log.timestamp = some s → strIsEmpty s = false → c ≤ parseTs s) →
    (∀ m, acc.latest = some m → c ≤ m) →
    ∀ m, (logs.foldl (ingestStep parseTs now pid) acc).latest = some m → c ≤ m := by
  intro logs
  induction logs with
  | nil => intro acc _ hacc m hm; exact hacc m hm
  | cons log rest ih =>
    intro acc hlogs hacc m hm
    rw [List.foldl_cons] at hm
    refine ih _ (fun l hl => hlogs l (List.mem_cons_of_mem _ hl)) ?_ m hm
    exact ingestStep_latest_ge parseTs now pid acc log c
      (hlogs log (List.mem_cons_self _ _)) hacc

/-- The maximum new-record timestamp of a batch is at or above any lower
bound satisfied by all timestamps of the batch. -/
theorem processLogs_latest_ge (parseTs : String → Int) (now : Int) (pid : String)
    (db : Db) (logs : List Payload) (c : Int)
    (hlogs : ∀ log ∈ logs, ∀ s, log.timestamp = some s → strIsEmpty s = false → c ≤ parseTs s) :
    ∀ m, (processLogs parseTs now pid db logs).latest = some m → c ≤ m :=
  foldl_ingest_latest_ge parseTs now pid c logs _ hlogs (fun m hm => by simp at hm)

/-- A failing fetch leaves the store untouched. -/
theorem cycleDb_failure (parseTs : String → Int) (now : Int) (pid : String)
    (res : FetchResult) (db : Db) (h : isFailure res = true) :
    cycleDb parseTs now pid res db = db := by
  cases res with
  | ok logs => simp [isFailure] at h
  | httpError code => rfl
  | exn => rfl

/-- Store evolution of a 200-response cycle. -/
theorem cycleDb_ok (parseTs : String → Int) (now : Int) (pid : String)
    (logs : List Payload) (db : Db) :
    cycleDb parseTs now pid (FetchResult.ok logs) db =
      (if logs.isEmpty then db
       else
        match (processLogs parseTs now pid db logs).latest with
        | some t =>
          if 0 < (processLogs parseTs now pid db logs).added then
            update_fetch_status now (processLogs parseTs now pid db logs).db pid t
              (processLogs parseTs now pid db logs).added
          else (processLogs parseTs now pid db logs).db
        | none => (processLogs parseTs now pid db logs).db) := by
  by_cases hemp : logs.isEmpty <;> simp [cycleDb, profileStep, hemp]

/-- Ingesting a batch does not move any cursor. -/
theorem get_last_processLogs (parseTs : String → Int) (now : Int) (pid : String)
    (db : Db) (logs : List Payload) (q : String) :
    get_last_fetch_timestamp (processLogs parseTs now pid db logs).db q
      = get_last_fetch_timestamp db q := by
  unfold get_last_fetch_timestamp
  rw [processLogs_fetch_status]

/-- One cycle respecting the fetch window never moves the cursor backwards. -/
theorem cycleDb_cursor_mono (parseTs : String → Int) (now : Int) (pid : String)
    (res : FetchResult) (db : Db) (c : Int)
    (hw : windowRespects parseTs pid db res)
    (hc : get_last_fetch_timestamp db pid = some c) :
    ∃ c2, get_last_fetch_timestamp (cycleDb parseTs now pid res db) pid = some c2 ∧ c ≤ c2 := by
  cases res with
  | httpError code => exact ⟨c, hc, le_refl c⟩
  | exn => exact ⟨c, hc, le_refl c⟩
  | ok logs =>
    rw [cycleDb_ok]
    by_cases hemp : logs.isEmpty
    · rw [if_pos hemp]
      exact ⟨c, hc, le_refl c⟩
    · rw [if_neg hemp]
      rcases hlat : (processLogs parseTs now pid db logs).latest with _ | t
      · exact ⟨c, by rw [get_last_processLogs]; exact hc, le_refl c⟩
      · dsimp only
        by_cases hadd : 0 < (processLogs parseTs now pid db logs).added
        · rw [if_pos hadd]
          refine ⟨t, update_fetch_status_cursor_self .., ?_⟩
          exact processLogs_latest_ge parseTs now pid db logs c
            (fun log hm s hs hse => hw c hc logs rfl log hm s hs hse) t hlat
        · rw [if_neg hadd]
          exact ⟨c, by rw [get_last_processLogs]; exact hc, le_refl c⟩

/-- The new-record count of a cycle on a non-empty 200 response. -/
theorem cycle_added_ok (parseTs : String → Int) (now : Int) (pid : String)
    (logs : List Payload) (db : Db) (h : logs.isEmpty = false) :
    cycle_added parseTs now pid (FetchResult.ok logs) db
      = (processLogs parseTs now pid db logs).added := by
  simp [cycle_added, profileStep, h]

/-- A cycle that stores zero new records leaves the cursor table untouched. -/
theorem cycle_added_zero_untouched (parseTs : String → Int) (now : Int) (pid : String)
    (res : FetchResult) (db : Db)
    (h : cycle_added parseTs now pid res db = 0) :
    (cycleDb parseTs now pid res db).fetch_status = db.fetch_status := by
  cases res with
  | httpError code => rfl
  | exn => rfl
  | ok logs =>
    rw [cycleDb_ok]
    by_cases hemp : logs.isEmpty
    · rw [if_pos hemp]
    · rw [if_neg hemp]
      rw [cycle_added_ok parseTs now pid logs db (by simpa using hemp)] at h
      rcases hlat : (processLogs parseTs now pid db logs).latest with _ | t
      · exact processLogs_fetch_status ..
      · dsimp only
        rw [if_neg (by omega : ¬ 0 < (processLogs parseTs now pid db logs).added)]
        exact processLogs_fetch_status ..

/-! ## Claim C2 -/

/-- C2: across any sequence of ingestion cycles over one source whose
responses respect the fetch window, the cursor value is non-decreasing; and
any single cycle that stores zero new (non-duplicate) records leaves the
cursor table completely untouched. -/
theorem cursor_monotone_and_untouched :
    (∀ (parseTs : String → Int) (profile_id : String) (cycles : List (Int × FetchResult))
        (db : Db) (c : Int),
      WindowOk parseTs profile_id db cycles →
      get_last_fetch_timestamp db profile_id = some c →
      ∃ c2, get_last_fetch_timestamp (runCycles parseTs profile_id cycles db) profile_id
          = some c2 ∧ c ≤ c2) ∧
    (∀ (parseTs : String → Int) (now : Int) (profile_id : String) (res : FetchResult) (db : Db),
      cycle_added parseTs now profile_id res db = 0 →
      (cycleDb parseTs now profile_id res db).fetch_status = db.fetch_status) := by
  constructor
  · intro parseTs pid cycles
    induction cycles with
    | nil =>
      intro db c _ hc
      exact ⟨c, hc, le_refl c⟩
    | cons cyc rest ih =>
      intro db c hwin hc
      rcases cyc with ⟨now, res⟩
      rcases hwin with ⟨hw, hrest⟩
      obtain ⟨c2, hc2, hcc2⟩ := cycleDb_cursor_mono parseTs now pid res db c hw hc
      obtain ⟨c3, hc3, hc23⟩ := ih (cycleDb parseTs now pid res db) c2 hrest hc2
      exact ⟨c3, hc3, le_trans hcc2 hc23⟩
  · exact cycle_added_zero_untouched

/-- A store with one existing cursor row at watermark 1, for the C2 witness. -/
def cursorDb : Db :=
  { rows := [], nextId := 1,
    fetch_status := [{ profile_id := "p1", last_fetch_timestamp := 1,
                       last_successful_fetch := 0, records_fetched := 0,
                       created_at := 0, updated_at := 0 }] }

/-- A payload carrying a timestamp, parsed to 5 by the witness parser. -/
def winPayload : Payload :=
  { emptyPayload with timestamp := some "t5", domain := some "d.com" }

/-- C2 witness: one window-respecting cycle advances the cursor from 1 to
some value at least 1, and an empty-response cycle leaves the cursor table
untouched. -/
theorem cursor_monotone_and_untouched_witness :
    (∃ c2, get_last_fetch_timestamp
        (runCycles (fun _ => 5) "p1" [(100, FetchResult.ok [winPayload])] cursorDb) "p1"
        = some c2 ∧ (1 : Int) ≤ c2) ∧
    (cycleDb (fun _ => 5) 100 "p1" (FetchResult.ok []) cursorDb).fetch_status
      = cursorDb.fetch_status := by
  constructor
  · refine cursor_monotone_and_untouched.1 (fun _ => 5) "p1"
      [(100, FetchResult.ok [winPayload])] cursorDb 1 ⟨?_, trivial⟩ (by decide)
    intro c hc logs hlogs log hmem s hs hse
    injection hlogs with hlogs
    subst hlogs
    simp only [List.mem_singleton] at hmem
    subst hmem
    have hc1 : c = 1 := by
      have : (some 1 : Option Int) = some c := by
        rw [← hc]
        decide
      injection this with h
      omega
    have hs5 : s = "t5" := by
      have : (some "t5" : Option String) = some s := by
        rw [← hs]
        decide
      injection this with h
      exact h.symm
    subst hc1
    norm_num
  · exact cursor_monotone_and_untouched.2 (fun _ => 5) 100 "p1" (FetchResult.ok [])
      cursorDb (by decide)

/-- The store component of a profile step does not depend on the counters. -/
theorem profileStep_db_pair (parseTs : String → Int) (now : Int) (pid : String)
    (res : FetchResult) (stats : CycleStats) (db : Db) :
    (profileStep parseTs now pid res (stats, db)).2 = cycleDb parseTs now pid res db := by
  cases res with
  | httpError code => rfl
  | exn => rfl
  | ok logs => by_cases hemp : logs.isEmpty <;> simp [profileStep, cycleDb, hemp]

/-- The failed counter after a profile step. -/
theorem profileStep_failed (parseTs : String → Int) (now : Int) (pid : String)
    (res : FetchResult) (stats : CycleStats) (db : Db) :
    (profileStep parseTs now pid res (stats, db)).1.failed
      = stats.failed + (if isFailure res then 1 else 0) := by
  cases res with
  | httpError code => rfl
  | exn => rfl
  | ok logs => by_cases hemp : logs.isEmpty <;> simp [profileStep, isFailure, hemp]

/-- The successful counter after a profile step. -/
theorem profileStep_successful (parseTs : String → Int) (now : Int) (pid : String)
    (res : FetchResult) (stats : CycleStats) (db : Db) :
    (profileStep parseTs now pid res (stats, db)).1.successful
      = stats.successful + (if isFailure res then 0 else 1) := by
  cases res with
  | httpError code => rfl
  | exn => rfl
  | ok logs => by_cases hemp : logs.isEmpty <;> simp [profileStep, isFailure, hemp]

/-- The store evolution of the multi-profile loop is the per-profile cycle
fold. -/
theorem fetch_logs_fold_db (parseTs : String → Int) (now : Int)
    (results : String → FetchResult) :
    ∀ (pids : List String) (acc : CycleStats × Db),
    (pids.foldl (fun a pid => profileStep parseTs now pid (results pid) a) acc).2
      = pids.foldl (fun db pid => cycleDb parseTs now pid (results pid) db) acc.2 := by
  intro pids
  induction pids with
  | nil => intro acc; rfl
  | cons p rest ih =>
    intro acc
    rcases acc with ⟨stats, db⟩
    rw [List.foldl_cons, List.foldl_cons, ih, profileStep_db_pair]

/-- The failed counter counts exactly the failing sources. -/
theorem fetch_logs_fold_failed (parseTs : String → Int) (now : Int)
    (results : String → FetchResult) :
    ∀ (pids : List String) (acc : CycleStats × Db),
    (pids.foldl (fun a pid => profileStep parseTs now pid (results pid) a) acc).1.failed
      = acc.1.failed + (pids.filter (fun p => isFailure (results p))).length := by
  intro pids
  induction pids with
  | nil => intro acc; simp
  | cons p rest ih =>
    intro acc
    rcases acc with ⟨stats, db⟩
    rw [List.foldl_cons, ih, List.filter_cons]
    rcases h : profileStep parseTs now p (results p) (stats, db) with ⟨stats2, db2⟩
    have hf : stats2.failed = stats.failed + (if isFailure (results p) then 1 else 0) := by
      rw [show stats2 = (profileStep parseTs now p (results p) (stats, db)).1 from by rw [h]]
      exact profileStep_failed ..
    by_cases hfail : isFailure (results p) <;> simp [hfail, hf] <;> omega

/-- The successful counter counts exactly the non-failing sources. -/
theorem fetch_logs_fold_successful (parseTs : String → Int) (now : Int)
    (results : String → FetchResult) :
    ∀ (pids : List String) (acc : CycleStats × Db),
    (pids.foldl (fun a pid => profileStep parseTs now pid (results pid) a) acc).1.successful
      = acc.1.successful + (pids.filter (fun p => !isFailure (results p))).length := by
  intro pids
  induction pids with
  | nil => intro acc; simp
  | cons p rest ih =>
    intro acc
    rcases acc with ⟨stats, db⟩
    rw [List.foldl_cons, ih, List.filter_cons]
    rcases h : profileStep parseTs now p (results p) (stats, db) with ⟨stats2, db2⟩
    have hf : stats2.successful = stats.successful + (if isFailure (results p) then 0 else 1) := by
      rw [show stats2 = (profileStep parseTs now p (results p) (stats, db)).1 from by rw [h]]
      exact profileStep_successful ..
    by_cases hfail : isFailure (results p) <;> simp [hfail, hf] <;> omega

/-- Failing sources contribute nothing to the store: the cycle over all
sources equals the cycle over the non-failing ones. -/
theorem dbFold_filter_failures (parseTs : String → Int) (now : Int)
    (results : String → FetchResult) :
    ∀ (pids : List String) (db : Db),
    pids.foldl (fun db pid => cycleDb parseTs now pid (results pid) db) db
      = (pids.filter (fun p => !isFailure (results p))).foldl
          (fun db pid => cycleDb parseTs now pid (results pid) db) db := by
  intro pids
  induction pids with
  | nil => intro db; rfl
  | cons p rest ih =>
    intro db
    rw [List.foldl_cons, List.filter_cons]
    by_cases hfail : isFailure (results p)
    · rw [cycleDb_failure parseTs now p (results p) db hfail]
      simp only [hfail, Bool.not_true, if_false]
      exact ih db
    · have : (!isFailure (results p)) = true := by simp [hfail]
      rw [if_pos this, List.foldl_cons]
      exact ih _

/-- A cycle of one profile leaves every other cursor alone. -/
theorem cycleDb_other_cursor (parseTs : String → Int) (now : Int) (pid : String)
    (res : FetchResult) (db : Db) (q : String) (hne : pid ≠ q) :
    get_last_fetch_timestamp (cycleDb parseTs now pid res db) q
      = get_last_fetch_timestamp db q := by
  cases res with
  | httpError code => rfl
  | exn => rfl
  | ok logs =>
    rw [cycleDb_ok]
    by_cases hemp : logs.isEmpty
    · rw [if_pos hemp]
    · rw [if_neg hemp]
      rcases hlat : (processLogs parseTs now pid db logs).latest with _ | t
      · exact get_last_processLogs ..
      · dsimp only
        by_cases hadd : 0 < (processLogs parseTs now pid db logs).added
        · rw [if_pos hadd, update_fetch_status_cursor_other _ _ _ _ _ _ hne,
            get_last_processLogs]
        · rw [if_neg hadd]
          exact get_last_processLogs ..

/-- After a whole multi-source cycle, the cursor of a source whose fetch
fails is unchanged. -/
theorem dbFold_failing_cursor_untouched (parseTs : String → Int) (now : Int)
    (results : String → FetchResult) (q : String) (hq : isFailure (results q) = true) :
    ∀ (pids : List String) (db : Db),
    get_last_fetch_timestamp
        (pids.foldl (fun db pid => cycleDb parseTs now pid (results pid) db) db) q
      = get_last_fetch_timestamp db q := by
  intro pids
  induction pids with
  | nil => intro db; rfl
  | cons p rest ih =>
    intro db
    rw [List.foldl_cons]
    by_cases hpq : p = q
    · subst hpq
      rw [cycleDb_failure parseTs now p (results p) db hq]
      exact ih db
    · rw [ih, cycleDb_other_cursor parseTs now p (results p) db q hpq]

/-! ## Claim C8 -/

/-- C8: a failing source does not abort the cycle — the final store equals
the cycle run over the non-failing sources alone, failed/successful counters
count exactly the failing/non-failing sources, the failing source keeps its
cursor, and in the two-source scenario with one raising source the other
source has its records stored and its cursor advanced to the maximum
new-record timestamp. -/
theorem source_isolation :
    (∀ (parseTs : String → Int) (now : Int) (results : String → FetchResult)
        (pids : List String) (db : Db),
      (fetch_logs parseTs now results pids db).2
        = (fetch_logs parseTs now results (pids.filter (fun p => !isFailure (results p))) db).2 ∧
      (fetch_logs parseTs now results pids db).1.failed
        = (pids.filter (fun p => isFailure (results p))).length ∧
      (fetch_logs parseTs now results pids db).1.successful
        = (pids.filter (fun p => !isFailure (results p))).length) ∧
    (∀ (parseTs : String → Int) (now : Int) (results : String → FetchResult)
        (pids : List String) (db : Db) (q : String),
      isFailure (results q) = true →
      get_last_fetch_timestamp (fetch_logs parseTs now results pids db).2 q
        = get_last_fetch_timestamp db q) ∧
    (∀ (parseTs : String → Int) (now : Int) (results : String → FetchResult)
        (p1 p2 : String) (logs : List Payload) (db : Db) (t : Int),
      isFailure (results p1) = true → results p2 = FetchResult.ok logs →
      p1 ≠ p2 → logs.isEmpty = false →
      (processLogs parseTs now p2 db logs).latest = some t →
      0 < (processLogs parseTs now p2 db logs).added →
      (fetch_logs parseTs now results [p1, p2] db).2
          = update_fetch_status now (processLogs parseTs now p2 db logs).db p2 t
              (processLogs parseTs now p2 db logs).added ∧
      (fetch_logs parseTs now results [p1, p2] db).2.rows
          = (processLogs parseTs now p2 db logs).db.rows ∧
      get_last_fetch_timestamp (fetch_logs parseTs now results [p1, p2] db).2 p2 = some t ∧
      get_last_fetch_timestamp (fetch_logs parseTs now results [p1, p2] db).2 p1
          = get_last_fetch_timestamp db p1 ∧
      (fetch_logs parseTs now results [p1, p2] db).1.failed = 1 ∧
      (fetch_logs parseTs now results [p1, p2] db).1.successful = 1) := by
  refine ⟨?_, ?_, ?_⟩
  · intro parseTs now results pids db
    refine ⟨?_, ?_, ?_⟩
    · show (fetch_logs parseTs now results pids db).2 = _
      rw [fetch_logs, fetch_logs, fetch_logs_fold_db, fetch_logs_fold_db]
      exact dbFold_filter_failures parseTs now results pids db
    · rw [fetch_logs, fetch_logs_fold_failed]
      simp
    · rw [fetch_logs, fetch_logs_fold_successful]
      simp
  · intro parseTs now results pids db q hq
    rw [fetch_logs, fetch_logs_fold_db]
    exact dbFold_failing_cursor_untouched parseTs now results q hq pids db
  · intro parseTs now results p1 p2 logs db t hfail hok hne hemp hlat hadd
    have hdb : (fetch_logs parseTs now results [p1, p2] db).2
        = update_fetch_status now (processLogs parseTs now p2 db logs).db p2 t
            (processLogs parseTs now p2 db logs).added := by
      rw [fetch_logs, fetch_logs_fold_db]
      rw [List.foldl_cons, List.foldl_cons, List.foldl_nil]
      rw [cycleDb_failure parseTs now p1 (results p1) _ hfail]
      rw [hok, cycleDb_ok, if_neg (by simp [hemp])]
      rw [hlat]
      dsimp only
      rw [if_pos hadd]
    refine ⟨hdb, ?_, ?_, ?_, ?_, ?_⟩
    · rw [hdb, update_fetch_status_rows]
    · rw [hdb, update_fetch_status_cursor_self]
    · rw [hdb, update_fetch_status_cursor_other _ _ _ _ _ _ (Ne.symm hne),
        get_last_processLogs]
    · have hok2 : isFailure (results p2) = false := by rw [hok]; rfl
      rw [fetch_logs, fetch_logs_fold_failed]
      simp [List.filter_cons, hfail, hok2]
    · have hok2 : isFailure (results p2) = false := by rw [hok]; rfl
      rw [fetch_logs, fetch_logs_fold_successful]
      simp [List.filter_cons, hfail, hok2]

/-- C8 witness: two sources, the first raising, the second returning one new
record: that record is ingested, its cursor is created at the parsed
timestamp, the failing cursor stays absent, and the counters read one failed
and one successful source. -/
theorem source_isolation_witness :
    get_last_fetch_timestamp
        (fetch_logs (fun _ => 5) 100
          (fun p => if p == "p1" then FetchResult.exn else FetchResult.ok [winPayload])
          ["p1", "p2"] Db.empty).2 "p2" = some 5 ∧
    get_last_fetch_timestamp
        (fetch_logs (fun _ => 5) 100
          (fun p => if p == "p1" then FetchResult.exn else FetchResult.ok [winPayload])
          ["p1", "p2"] Db.empty).2 "p1" = get_last_fetch_timestamp Db.empty "p1" ∧
    (fetch_logs (fun _ => 5) 100
        (fun p => if p == "p1" then FetchResult.exn else FetchResult.ok [winPayload])
        ["p1", "p2"] Db.empty).1.failed = 1 ∧
    (fetch_logs (fun _ => 5) 100
        (fun p => if p == "p1" then FetchResult.exn else FetchResult.ok [winPayload])
        ["p1", "p2"] Db.empty).1.successful = 1 := by
  have R := source_isolation.2.2 (fun _ => 5) 100
    (fun p => if p == "p1" then FetchResult.exn else FetchResult.ok [winPayload])
    "p1" "p2" [winPayload] Db.empty 5 (by decide) rfl (by decide) rfl (by decide) (by decide)
  exact ⟨R.2.2.1, R.2.2.2.1, R.2.2.2.2.1, R.2.2.2.2.2⟩
